import Mathlib

/-!
Verification of the distributed event deduplication gateway
(`app/main.py`, `app/models/events_table.py`, `app/schemas/event_schema.py`).

The per-frame processing of the websocket endpoint is embedded as a pure
step function over an explicit system state (coordinator key-value store +
relational events table).  External nondeterminism (coordinator
availability, TTL expiry, store faults) is passed in as an explicit
`Oracle`.  Exceptions in the Python source are modelled with `Except`.
-/

/-- A decoded structured value, as produced by parsing one inbound frame
(Python object resulting from `json.loads`). -/
inductive PyVal where
  | pynone
  | pybool (b : Bool)
  | pyint (n : Int)
  | pystr (s : String)
  | pylist (xs : List PyVal)
  | pydict (kvs : List (String × PyVal))
deriving Repr

/-- Python truthiness of a decoded value, as used by
`if event.payload.get("force_fail"):` in `websocket_endpoint`. -/
def PyVal.truthy : PyVal → Bool
  | .pynone => false
  | .pybool b => b
  | .pyint n => n != 0
  | .pystr s => s != ""
  | .pylist xs => !xs.isEmpty
  | .pydict kvs => !kvs.isEmpty

/-- `dict.get key` on a decoded object: the value at `key`, or Python
`None` when absent. -/
def dictGet (kvs : List (String × PyVal)) (key : String) : PyVal :=
  match kvs.lookup key with
  | some v => v
  | none => .pynone

/-- A raw inbound record after JSON decoding and field typing, before
pydantic field-requirement validation.  `none` in `event_id`/`event_type`
means the field is missing from the frame.  `created_at` is kept abstract
as a pre-parsed timestamp value. -/
structure RawRecord where
  event_id : Option String
  event_type : Option String
  payload : Option (List (String × PyVal))
  created_at : Option Int
deriving Repr

/-- `EventSchema` (app/schemas/event_schema.py): the validated event.
`event_id : str` required with `min_length=1`; `event_type : str`
required; `payload` optional with default `None`; `created_at` optional. -/
structure EventSchema where
  event_id : String
  event_type : String
  payload : Option (List (String × PyVal))
  created_at : Option Int
deriving Repr

/-- Pydantic validation of `EventSchema(**json.loads(raw_data))`:
rejects a record missing `event_id` or `event_type`, or whose
`event_id` is shorter than `min_length=1`.  No maximum length is
declared on any field. -/
def validateEvent (raw : RawRecord) : Option EventSchema :=
  match raw.event_id, raw.event_type with
  | some eid, some etype =>
      if 1 ≤ eid.length then
        some ⟨eid, etype, raw.payload, raw.created_at⟩
      else
        none
  | _, _ => none

/-- A row of the `events` table (`Event` in app/models/events_table.py),
without the server-assigned `id` and `processed_at` columns.
`event_id` carries a unique index; `event_id`, `event_type` and
`payload` are `NOT NULL`; `event_id` is `String(255)` and `event_type`
is `String(100)`. -/
structure EventRow where
  event_id : String
  event_type : String
  payload : Option (List (String × PyVal))
deriving Repr

/-- The events table: insert-only list of rows. -/
abbrev DbState := List EventRow

/-- The coordinator (Redis) keyspace: an association list from keys to
string values; the first binding for a key is its current value. -/
abbrev RedisState := List (String × String)

/-- Current value of a key in the coordinator, or absent. -/
def redisGet (r : RedisState) (key : String) : Option String :=
  List.lookup key r

/-- Delete a key from the coordinator (Redis `DELETE`, also used to model
passive TTL expiry). -/
def redisErase (r : RedisState) (key : String) : RedisState :=
  List.filter (fun kv => kv.1 != key) r

/-- How the relational store can reject an insert.  `connection` is a
transport/timeout fault (SQLAlchemy raises a non-`IntegrityError`);
`dataTooLong` is a value-length error on a `String(n)` column (a
`DataError`, not an `IntegrityError`); `notNullViolation` and
`uniqueViolation` are constraint violations raised as `IntegrityError`. -/
inductive StoreRej where
  | connection
  | dataTooLong
  | notNullViolation
  | uniqueViolation
deriving Repr, DecidableEq

/-- Whether a store rejection surfaces to SQLAlchemy as `IntegrityError`
(constraint violations do; connection faults and value errors do not). -/
def StoreRej.isIntegrityError : StoreRej → Bool
  | .uniqueViolation => true
  | .notNullViolation => true
  | _ => false

/-- `db.commit()` for a one-row insert: the store's verdict.  A
connection-level fault preempts everything; then value-length checks on
the `String(255)`/`String(100)` columns; then the `NOT NULL` constraint
on `payload`; then the unique index on `event_id`.  On success the row
is appended. -/
def dbCommit (db : DbState) (row : EventRow) (storeFault : Bool) :
    Except StoreRej DbState :=
  if storeFault then .error .connection
  else if 255 < row.event_id.length ∨ 100 < row.event_type.length then
    .error .dataTooLong
  else
    match row.payload with
    | none => .error .notNullViolation
    | some _ =>
      if db.any (fun r => r.event_id == row.event_id) then
        .error .uniqueViolation
      else
        .ok (db ++ [row])

/-- Outcome of `process_persist` when it returns normally: the commit
succeeded, or an `IntegrityError` was caught and logged (possible
duplicate). -/
inductive PersistResult where
  | inserted
  | duplicate
deriving Repr, DecidableEq

/-- `process_persist` (app/main.py): builds the row from the event,
commits it; catches `IntegrityError` (rollback, log, return normally);
rolls back and re-raises any other exception.  `.error` is the
re-raised exception. -/
def process_persist (event : EventSchema) (db : DbState) (storeFault : Bool) :
    Except StoreRej (DbState × PersistResult) :=
  let db_item : EventRow :=
    ⟨event.event_id, event.event_type, event.payload⟩
  match dbCommit db db_item storeFault with
  | .ok db' => .ok (db', .inserted)
  | .error e =>
      if e.isIntegrityError then
        .ok (db, .duplicate)
      else
        .error e

/-- `_release_lock_if_owner` (app/main.py): read the current value of the
dedup key; delete it only when it equals this instance's identity; any
exception from the coordinator (modelled by `getOk`/`delOk` false) is
caught and logged, leaving the keyspace unchanged. -/
def release_lock_if_owner (r : RedisState) (dedup_key instance_id : String)
    (getOk delOk : Bool) : RedisState :=
  if !getOk then r
  else
    match redisGet r dedup_key with
    | some v =>
        if v = instance_id then
          if delOk then redisErase r dedup_key else r
        else r
    | none => r

/-- The nondeterministic environment of one frame: whether the dedup key
expired (TTL) before the claim, whether the coordinator is reachable for
the claim, whether the store faults, and whether the coordinator get and
delete succeed during a release. -/
structure Oracle where
  expireBefore : Bool
  redisOk : Bool
  storeFault : Bool
  relGetOk : Bool
  relDelOk : Bool
deriving Repr

/-- Classified outcome of processing one frame; every outcome ends in
`continue`, keeping the session alive. -/
inductive FrameOutcome where
  | invalid
  | emptyId
  | claimError
  | duplicateSkip
  | forcedFail
  | persistError
  | persisted (pr : PersistResult)
deriving Repr, DecidableEq

/-- Combined system state: coordinator keyspace and events table. -/
structure SysState where
  redis : RedisState
  db : DbState
deriving Repr

/-- Result of one frame: the new system state, the classified outcome,
and instrumentation flags recording whether the store insert
(`process_persist`) and the claim release (`_release_lock_if_owner`)
were invoked during the frame. -/
structure FrameResult where
  state : SysState
  outcome : FrameOutcome
  calledInsert : Bool
  calledRelease : Bool
deriving Repr

/-- One iteration of the `while True` loop of `websocket_endpoint`
(app/main.py) on an already JSON-decoded frame: pydantic validation,
the `if not event.event_id` guard, the Redis `SET NX EX` claim, the
`force_fail` test hook (which raises `AttributeError` when `payload` is
`None`), and the persist phase with release-on-failure. -/
def websocket_frame (instance_id : String) (s : SysState) (raw : RawRecord)
    (o : Oracle) : FrameResult :=
  match validateEvent raw with
  | none => ⟨s, .invalid, false, false⟩
  | some event =>
    if event.event_id = "" then ⟨s, .emptyId, false, false⟩
    else
      let dedup_key := "dedup:" ++ event.event_id
      let r0 := if o.expireBefore then redisErase s.redis dedup_key else s.redis
      if !o.redisOk then ⟨⟨r0, s.db⟩, .claimError, false, false⟩
      else
        match redisGet r0 dedup_key with
        | some _ => ⟨⟨r0, s.db⟩, .duplicateSkip, false, false⟩
        | none =>
          let r1 := (dedup_key, instance_id) :: r0
          match event.payload with
          | none =>
              ⟨⟨release_lock_if_owner r1 dedup_key instance_id
                  o.relGetOk o.relDelOk, s.db⟩,
               .forcedFail, false, true⟩
          | some kvs =>
            if (dictGet kvs "force_fail").truthy then
              ⟨⟨release_lock_if_owner r1 dedup_key instance_id
                  o.relGetOk o.relDelOk, s.db⟩,
               .forcedFail, false, true⟩
            else
              match process_persist event s.db o.storeFault with
              | .ok (db', pr) => ⟨⟨r1, db'⟩, .persisted pr, true, false⟩
              | .error _ =>
                  ⟨⟨release_lock_if_owner r1 dedup_key instance_id
                      o.relGetOk o.relDelOk, s.db⟩,
                   .persistError, true, true⟩

/-- One submission: a frame together with its environment and the
identity of the instance that processes it. -/
structure Submission where
  raw : RawRecord
  oracle : Oracle
  instance_id : String
deriving Repr

/-- Sequential-to-completion processing of a list of submissions,
threading the shared system state. -/
def runSubmissions (s : SysState) (subs : List Submission) : SysState :=
  subs.foldl (fun st sub =>
    (websocket_frame sub.instance_id st sub.raw sub.oracle).state) s

/-- Initial system state: empty coordinator keyspace, empty table. -/
def initState : SysState := ⟨[], []⟩

/-- Number of rows of the events table carrying a given `event_id`. -/
def countId (db : DbState) (eid : String) : Nat :=
  (db.filter (fun r => r.event_id == eid)).length

/-! ## Helper lemmas -/

theorem redisGet_erase (r : RedisState) (key k : String) :
    redisGet (redisErase r key) k = if k = key then none else redisGet r k := by
  induction r with
  | nil => simp [redisErase, redisGet, List.lookup]
  | cons hd tl ih =>
    obtain ⟨a, b⟩ := hd
    simp only [redisErase, redisGet, List.filter_cons] at ih ⊢
    by_cases ha : a = key
    · have : ((a, b).1 != key) = false := by simp [ha]
      rw [this]
      simp only [Bool.false_eq_true, if_false]
      rw [ih]
      by_cases hk : k = key
      · simp [hk]
      · have hka : (k == a) = false := beq_eq_false_iff_ne.mpr (ha ▸ hk)
        simp [hk, List.lookup_cons, hka]
    · have : ((a, b).1 != key) = true := bne_iff_ne.mpr ha
      rw [this]
      simp only [if_true]
      by_cases hk : k = a
      · have hkey : k ≠ key := hk ▸ ha
        simp [List.lookup_cons, hk, hkey, ha]
      · have hka : (k == a) = false := beq_eq_false_iff_ne.mpr hk
        simp [List.lookup_cons, hka, ih]

theorem string_length_eq_zero_iff (s : String) : s.length = 0 ↔ s = "" := by
  cases s with
  | mk data =>
    constructor
    · intro h
      simp [String.length] at h
      simp [h]
    · intro h
      rw [h]
      rfl

theorem dbCommit_ok_shape (db : DbState) (row : EventRow) (fault : Bool)
    (db' : DbState) (h : dbCommit db row fault = .ok db') :
    db' = db ++ [row] ∧
    db.any (fun r => r.event_id == row.event_id) = false := by
  unfold dbCommit at h
  repeat' split at h
  all_goals simp_all

theorem dbCommit_notNull (db : DbState) (row : EventRow) (fault : Bool)
    (h : dbCommit db row fault = .error .notNullViolation) :
    row.payload = none := by
  unfold dbCommit at h
  repeat' split at h
  all_goals simp_all

theorem process_persist_inserted_iff (e : EventSchema) (db : DbState)
    (fault : Bool) (db' : DbState) :
    process_persist e db fault = .ok (db', .inserted) ↔
      dbCommit db ⟨e.event_id, e.event_type, e.payload⟩ fault = .ok db' := by
  simp only [process_persist]
  cases hc : dbCommit db ⟨e.event_id, e.event_type, e.payload⟩ fault with
  | ok db2 => simp [hc, eq_comm]
  | error rej => cases rej <;> simp [hc, StoreRej.isIntegrityError]

theorem process_persist_duplicate_iff (e : EventSchema) (db : DbState)
    (fault : Bool) (db' : DbState) (hp : e.payload ≠ none) :
    process_persist e db fault = .ok (db', .duplicate) ↔
      (db' = db ∧
       dbCommit db ⟨e.event_id, e.event_type, e.payload⟩ fault
         = .error .uniqueViolation) := by
  simp only [process_persist]
  cases hc : dbCommit db ⟨e.event_id, e.event_type, e.payload⟩ fault with
  | ok db2 => simp [hc]
  | error rej =>
    cases rej with
    | connection => simp [hc, StoreRej.isIntegrityError]
    | dataTooLong => simp [hc, StoreRej.isIntegrityError]
    | notNullViolation => exact absurd (dbCommit_notNull _ _ _ hc) hp
    | uniqueViolation => simp [hc, StoreRej.isIntegrityError, eq_comm]

theorem process_persist_error_iff (e : EventSchema) (db : DbState)
    (fault : Bool) (rej : StoreRej) :
    process_persist e db fault = .error rej ↔
      (dbCommit db ⟨e.event_id, e.event_type, e.payload⟩ fault = .error rej ∧
       rej.isIntegrityError = false) := by
  simp only [process_persist]
  cases rej <;>
    (cases hc : dbCommit db ⟨e.event_id, e.event_type, e.payload⟩ fault with
     | ok db2 => simp [hc]
     | error rej2 => cases rej2 <;> simp [hc, StoreRej.isIntegrityError])

theorem process_persist_db_shape (e : EventSchema) (db : DbState)
    (fault : Bool) (db' : DbState) (pr : PersistResult)
    (h : process_persist e db fault = .ok (db', pr)) :
    db' = db ∨
    (db' = db ++ [⟨e.event_id, e.event_type, e.payload⟩] ∧
     db.any (fun r => r.event_id == e.event_id) = false) := by
  simp only [process_persist] at h
  cases hc : dbCommit db ⟨e.event_id, e.event_type, e.payload⟩ fault with
  | ok db2 =>
    rw [hc] at h
    simp only [Except.ok.injEq, Prod.mk.injEq] at h
    rcases dbCommit_ok_shape _ _ _ _ hc with ⟨h3, h4⟩
    refine Or.inr ⟨?_, by simpa using h4⟩
    rw [← h.1, h3]
  | error rej =>
    rw [hc] at h
    by_cases hi : rej.isIntegrityError
    · simp only [hi, if_true, Except.ok.injEq, Prod.mk.injEq] at h
      exact Or.inl (by rw [← h.1])
    · simp [hi] at h

theorem websocket_frame_db_shape (i : String) (s : SysState) (raw : RawRecord)
    (o : Oracle) :
    (websocket_frame i s raw o).state.db = s.db ∨
    ∃ row, (websocket_frame i s raw o).state.db = s.db ++ [row] ∧
           s.db.any (fun r => r.event_id == row.event_id) = false := by
  simp only [websocket_frame]
  repeat' split
  all_goals
    first
    | exact Or.inl rfl
    | (rcases process_persist_db_shape _ _ _ _ _ (by assumption) with h | ⟨h1, h2⟩
       · exact Or.inl h
       · exact Or.inr ⟨_, h1, h2⟩)

theorem countId_append (db : DbState) (row : EventRow) (eid : String) :
    countId (db ++ [row]) eid =
      countId db eid + (if row.event_id == eid then 1 else 0) := by
  simp only [countId, List.filter_append, List.length_append]
  by_cases h : row.event_id == eid <;> simp [List.filter, h]

theorem countId_eq_zero_of_not_any (db : DbState) (eid : String)
    (h : db.any (fun r => r.event_id == eid) = false) :
    countId db eid = 0 := by
  simp only [countId, List.length_eq_zero]
  rw [List.filter_eq_nil_iff]
  intro r hr
  have := List.any_eq_false.mp h r hr
  simpa using this

theorem countId_pos_of_mem (db : DbState) (eid : String) (r : EventRow)
    (hr : r ∈ db) (he : r.event_id = eid) : 1 ≤ countId db eid := by
  have hmem : r ∈ db.filter (fun x => x.event_id == eid) :=
    List.mem_filter.mpr ⟨hr, by simp [he]⟩
  exact List.length_pos_of_mem hmem

theorem websocket_frame_preserves_count (i : String) (s : SysState)
    (raw : RawRecord) (o : Oracle) (eid : String)
    (hInv : countId s.db eid ≤ 1) :
    countId (websocket_frame i s raw o).state.db eid ≤ 1 := by
  rcases websocket_frame_db_shape i s raw o with h | ⟨row, h1, h2⟩
  · rw [h]; exact hInv
  · rw [h1, countId_append]
    by_cases he : row.event_id == eid
    · have heid : row.event_id = eid := eq_of_beq he
      have h0 : countId s.db eid = 0 :=
        countId_eq_zero_of_not_any _ _ (by rw [← heid]; exact h2)
      simp [he, h0]
    · simp only [he, Bool.false_eq_true, if_false, Nat.add_zero]
      exact hInv

theorem runSubmissions_count (subs : List Submission) :
    ∀ s : SysState, ∀ eid : String, countId s.db eid ≤ 1 →
      countId (runSubmissions s subs).db eid ≤ 1 := by
  induction subs with
  | nil => intro s eid h; simpa [runSubmissions] using h
  | cons sub rest ih =>
    intro s eid h
    simp only [runSubmissions, List.foldl_cons] at *
    exact ih _ eid (websocket_frame_preserves_count _ _ _ _ _ h)

theorem process_persist_of_unique (e : EventSchema) (db : DbState)
    (fault : Bool)
    (h : dbCommit db ⟨e.event_id, e.event_type, e.payload⟩ fault
      = .error .uniqueViolation) :
    process_persist e db fault = .ok (db, .duplicate) := by
  simp only [process_persist, h, StoreRej.isIntegrityError, if_true]

theorem frame_dup_mp (i : String) (s : SysState) (raw : RawRecord) (o : Oracle)
    (e : EventSchema) (hv : validateEvent raw = some e)
    (h : (websocket_frame i s raw o).outcome = .persisted .duplicate) :
    (websocket_frame i s raw o).calledInsert = true ∧
    (websocket_frame i s raw o).state.db = s.db ∧
    (websocket_frame i s raw o).calledRelease = false ∧
    dbCommit s.db ⟨e.event_id, e.event_type, e.payload⟩ o.storeFault
      = .error .uniqueViolation := by
  simp only [websocket_frame, hv] at h ⊢
  split at h <;> (try simp_all) <;> (repeat' split at h) <;>
    simp_all [process_persist_duplicate_iff]

theorem frame_dup_mpr (i : String) (s : SysState) (raw : RawRecord) (o : Oracle)
    (e : EventSchema) (hv : validateEvent raw = some e)
    (h1 : (websocket_frame i s raw o).calledInsert = true)
    (h2 : dbCommit s.db ⟨e.event_id, e.event_type, e.payload⟩ o.storeFault
      = .error .uniqueViolation) :
    (websocket_frame i s raw o).outcome = .persisted .duplicate := by
  simp only [websocket_frame, hv] at h1 ⊢
  split at h1 <;> (try simp_all) <;> (repeat' split at h1) <;>
    simp_all [process_persist_of_unique]

theorem dbCommit_ok_lengths (db : DbState) (row : EventRow) (fault : Bool)
    (db' : DbState) (h : dbCommit db row fault = .ok db') :
    row.event_id.length ≤ 255 ∧ row.event_type.length ≤ 100 ∧
    row.payload ≠ none := by
  unfold dbCommit at h
  repeat' split at h
  all_goals simp_all [Nat.not_lt]

theorem process_persist_ok_cases (e : EventSchema) (db : DbState) (fault : Bool)
    (db' : DbState) (pr : PersistResult)
    (h : process_persist e db fault = .ok (db', pr)) (hp : e.payload ≠ none) :
    (pr = .inserted ∧
     dbCommit db ⟨e.event_id, e.event_type, e.payload⟩ fault = .ok db') ∨
    (pr = .duplicate ∧ db' = db ∧
     dbCommit db ⟨e.event_id, e.event_type, e.payload⟩ fault
       = .error .uniqueViolation) := by
  cases pr with
  | inserted => exact Or.inl ⟨rfl, (process_persist_inserted_iff _ _ _ _).mp h⟩
  | duplicate =>
    rcases (process_persist_duplicate_iff _ _ _ _ hp).mp h with ⟨h1, h2⟩
    exact Or.inr ⟨rfl, h1, h2⟩

theorem frame_inserted_db (i : String) (s : SysState) (raw : RawRecord)
    (o : Oracle) (e : EventSchema) (hv : validateEvent raw = some e)
    (h : (websocket_frame i s raw o).outcome = .persisted .inserted) :
    (websocket_frame i s raw o).state.db
      = s.db ++ [⟨e.event_id, e.event_type, e.payload⟩] ∧
    e.event_id.length ≤ 255 ∧ e.event_type.length ≤ 100 ∧
    e.payload ≠ none := by
  simp only [websocket_frame, hv] at h ⊢
  split at h <;> (try simp_all) <;> (repeat' split at h) <;> (try simp_all)
  all_goals
    (rcases process_persist_ok_cases _ _ _ _ _ (by assumption) (by simp_all)
        with ⟨hA, hB⟩ | ⟨hA, hB, hC⟩
     · rcases dbCommit_ok_shape _ _ _ _ hB with ⟨hD, hE⟩
       rcases dbCommit_ok_lengths _ _ _ _ hB with ⟨hL1, hL2, hL3⟩
       simp_all
     · simp_all)

theorem frame_db_unchanged_unless_inserted (i : String) (s : SysState)
    (raw : RawRecord) (o : Oracle)
    (h : (websocket_frame i s raw o).outcome ≠ .persisted .inserted) :
    (websocket_frame i s raw o).state.db = s.db := by
  simp only [websocket_frame] at h ⊢
  repeat' split
  all_goals (try simp_all)
  all_goals
    (rcases process_persist_ok_cases _ _ _ _ _ (by assumption) (by simp_all)
        with ⟨hA, hB⟩ | ⟨hA, hB, hC⟩ <;> simp_all)

theorem frame_payload_none (i : String) (s : SysState) (raw : RawRecord)
    (o : Oracle) (e : EventSchema) (hv : validateEvent raw = some e)
    (hp : e.payload = none) :
    (websocket_frame i s raw o).state.db = s.db ∧
    (websocket_frame i s raw o).calledInsert = false := by
  simp only [websocket_frame, hv]
  repeat' split
  all_goals simp_all

/-! ## Concrete fixtures for witnesses and counterexamples -/

/-- A well-formed frame: valid id and type, empty-object payload. -/
def rawGood : RawRecord := ⟨some "e1", some "t", some [], none⟩

/-- Environment with every external system healthy and no TTL expiry. -/
def goodOracle : Oracle := ⟨false, true, false, true, true⟩

/-- Environment in which the coordinator is unreachable during the claim. -/
def oracleRedisDown : Oracle := ⟨false, false, false, true, true⟩

/-- Environment in which the store faults at commit time. -/
def oracleStoreDown : Oracle := ⟨false, true, true, true, true⟩

/-- One healthy submission of `rawGood` by instance `i1`. -/
def subGood : Submission := ⟨rawGood, goodOracle, "i1"⟩

/-! ## Claims -/

/-- C1: Idempotence — after any finite sequence of submissions processed
sequentially to completion from the initial state, the events table
contains at most one row for any `event_id` (count 0 or 1), and exactly
one as soon as any submission persisted a row with it. -/
theorem C1_idempotent_event_count (subs : List Submission) (eid : String) :
    countId (runSubmissions initState subs).db eid ≤ 1 ∧
    ((∃ r ∈ (runSubmissions initState subs).db, r.event_id = eid) →
      countId (runSubmissions initState subs).db eid = 1) := by
  have hle := runSubmissions_count subs initState eid (by simp [countId, initState])
  refine ⟨hle, ?_⟩
  rintro ⟨r, hr, he⟩
  exact le_antisymm hle (countId_pos_of_mem _ _ _ hr he)

/-- Witness for C1 at a concrete submission list that persists a row. -/
theorem C1_idempotent_event_count_witness :
    countId (runSubmissions initState [subGood, subGood]).db "e1" = 1 :=
  (C1_idempotent_event_count [subGood, subGood] "e1").2
    ⟨⟨"e1", "t", some []⟩, List.Mem.head _, rfl⟩

/-- C2: when the claim is lost (`duplicateSkip`) or the coordinator is
unavailable (`claimError`), the frame completes without invoking
`process_persist` and writes no row. -/
theorem C2_no_insert_without_claim_won (i : String) (s : SysState)
    (raw : RawRecord) (o : Oracle)
    (h : (websocket_frame i s raw o).outcome = .duplicateSkip ∨
         (websocket_frame i s raw o).outcome = .claimError) :
    (websocket_frame i s raw o).state.db = s.db ∧
    (websocket_frame i s raw o).calledInsert = false := by
  simp only [websocket_frame] at h ⊢
  split at h <;> (try simp_all) <;> (repeat' split at h) <;> simp_all

/-- Witness for C2: the coordinator is down, so the frame ends in
`claimError` with no insert attempted and no row written. -/
theorem C2_no_insert_without_claim_won_witness :
    (websocket_frame "i1" initState rawGood oracleRedisDown).state.db
        = initState.db ∧
    (websocket_frame "i1" initState rawGood oracleRedisDown).calledInsert
        = false :=
  C2_no_insert_without_claim_won "i1" initState rawGood oracleRedisDown
    (Or.inr rfl)

/-- C4: on a successful frame (`Inserted` or `Duplicate`), the release is
never invoked and the dedup key `dedup:{event_id}` is still held by the
processing instance afterwards (it is left to expire by TTL). -/
theorem C4_no_release_on_success (i : String) (s : SysState) (raw : RawRecord)
    (o : Oracle) (e : EventSchema) (pr : PersistResult)
    (hv : validateEvent raw = some e)
    (h : (websocket_frame i s raw o).outcome = .persisted pr) :
    (websocket_frame i s raw o).calledRelease = false ∧
    redisGet (websocket_frame i s raw o).state.redis ("dedup:" ++ e.event_id)
      = some i := by
  simp only [websocket_frame, hv] at h ⊢
  split at h <;> (try simp_all) <;> (repeat' split at h) <;>
    simp_all [redisGet, List.lookup_cons]

/-- Witness for C4 at a concrete healthy submission that inserts a row. -/
theorem C4_no_release_on_success_witness :
    (websocket_frame "i1" initState rawGood goodOracle).calledRelease
        = false ∧
    redisGet (websocket_frame "i1" initState rawGood goodOracle).state.redis
        ("dedup:" ++ "e1") = some "i1" :=
  C4_no_release_on_success "i1" initState rawGood goodOracle
    ⟨"e1", "t", some [], none⟩ .inserted rfl rfl

/-- C5: on every insert failure other than `Duplicate` (the frame ends in
`persistError`), the release of the dedup key is invoked, no row is
written, and the frame completes (the loop continues with the next
frame). -/
theorem C5_release_on_insert_failure (i : String) (s : SysState)
    (raw : RawRecord) (o : Oracle)
    (h : (websocket_frame i s raw o).outcome = .persistError) :
    (websocket_frame i s raw o).calledRelease = true ∧
    (websocket_frame i s raw o).state.db = s.db := by
  simp only [websocket_frame] at h ⊢
  split at h <;> (try simp_all) <;> (repeat' split at h) <;> simp_all

/-- Witness for C5: the store faults at commit, the claim is released and
no row is written. -/
theorem C5_release_on_insert_failure_witness :
    (websocket_frame "i1" initState rawGood oracleStoreDown).calledRelease
        = true ∧
    (websocket_frame "i1" initState rawGood oracleStoreDown).state.db
        = initState.db :=
  C5_release_on_insert_failure "i1" initState rawGood oracleStoreDown rfl

/-- C3: the persist phase reports `Duplicate` precisely when the store
rejected the insert with the unique-constraint violation on `event_id`
(no other rejection is classified as `Duplicate`), and a `Duplicate`
frame is a successful no-op — no row written, no release — even though
the claim was just won. -/
theorem C3_duplicate_iff_unique_violation (i : String) (s : SysState)
    (raw : RawRecord) (o : Oracle) (e : EventSchema)
    (hv : validateEvent raw = some e) :
    ((websocket_frame i s raw o).outcome = .persisted .duplicate ↔
      ((websocket_frame i s raw o).calledInsert = true ∧
       dbCommit s.db ⟨e.event_id, e.event_type, e.payload⟩ o.storeFault
         = .error .uniqueViolation)) ∧
    ((websocket_frame i s raw o).outcome = .persisted .duplicate →
      (websocket_frame i s raw o).state.db = s.db ∧
      (websocket_frame i s raw o).calledRelease = false) := by
  constructor
  · constructor
    · intro h
      rcases frame_dup_mp i s raw o e hv h with ⟨h1, _, _, h4⟩
      exact ⟨h1, h4⟩
    · rintro ⟨h1, h2⟩
      exact frame_dup_mpr i s raw o e hv h1 h2
  · intro h
    rcases frame_dup_mp i s raw o e hv h with ⟨_, h2, h3, _⟩
    exact ⟨h2, h3⟩

/-- Witness for C3: a row with `e1` already exists, the claim is won, the
store rejects with the unique violation, and the frame is classified as
a successful duplicate. -/
theorem C3_duplicate_iff_unique_violation_witness :
    (websocket_frame "i1" ⟨[], [⟨"e1", "t", some []⟩]⟩ rawGood
        goodOracle).outcome = .persisted .duplicate :=
  ((C3_duplicate_iff_unique_violation "i1" ⟨[], [⟨"e1", "t", some []⟩]⟩
      rawGood goodOracle ⟨"e1", "t", some [], none⟩ rfl).1).mpr ⟨rfl, rfl⟩

/-- C6: `_release_lock_if_owner` never changes the value of any key whose
current value is not this instance's identity — in particular it deletes
`dedup:{event_id}` only when it currently holds this instance's
identity, performs no mutation on an owner mismatch, and tolerates
coordinator errors (`getOk`/`delOk` false) without mutating anything. -/
theorem C6_release_only_owned_claim (r : RedisState) (key owner : String)
    (getOk delOk : Bool) :
    (∀ k v, redisGet r k = some v → v ≠ owner →
        redisGet (release_lock_if_owner r key owner getOk delOk) k = some v) ∧
    (redisGet r key ≠ some owner →
        release_lock_if_owner r key owner getOk delOk = r) ∧
    (getOk = false ∨ delOk = false →
        release_lock_if_owner r key owner getOk delOk = r) := by
  unfold release_lock_if_owner
  repeat' split
  all_goals
    try exact ⟨fun k v hv _ => hv, fun _ => rfl, fun _ => rfl⟩
  refine ⟨?_, ?_, ?_⟩
  · intro k v hv hvo
    rw [redisGet_erase]
    have hg : redisGet r key = some owner := by simp_all
    by_cases hk : k = key
    · rw [hk] at hv
      rw [hv] at hg
      exact absurd (Option.some.inj hg) hvo
    · simp [hk, hv]
  · intro hne
    have hg : redisGet r key = some owner := by simp_all
    exact absurd hg hne
  · rintro (hfk | hfk) <;> simp_all

/-- Witness for C6: key held by another instance (`i2`); the release by
`i1` leaves the keyspace untouched. -/
theorem C6_release_only_owned_claim_witness :
    redisGet (release_lock_if_owner [("dedup:x", "i2")] "dedup:x" "i1"
        true true) "dedup:x" = some "i2" ∧
    release_lock_if_owner [("dedup:x", "i2")] "dedup:x" "i1" true true
      = [("dedup:x", "i2")] :=
  ⟨(C6_release_only_owned_claim [("dedup:x", "i2")] "dedup:x" "i1"
      true true).1 "dedup:x" "i2" rfl (by decide),
   (C6_release_only_owned_claim [("dedup:x", "i2")] "dedup:x" "i1"
      true true).2.1 (by decide)⟩

/-- A 256-character `event_id`, exceeding the 255 `String(255)` column
limit of the events table. -/
def longId256 : String := String.mk (List.replicate 256 'a')

set_option maxRecDepth 4096 in
/-- C7 counterexample: the pydantic schema declares no maximum length on
`event_id`, so a record whose `event_id` has 256 characters is NOT
rejected by validation, contrary to the claim. -/
theorem C7_counterexample_overlong_id_passes_validation :
    255 < longId256.length ∧
    validateEvent ⟨some longId256, some "t", some [], none⟩
      = some ⟨longId256, "t", some [], none⟩ :=
  ⟨by decide, rfl⟩

/-- C7 (amended): validation rejects exactly the records missing
`event_id` or `event_type` or with an empty `event_id`; a rejected
record is dropped with no claim and no row and the session continues;
an over-length `event_id` passes validation but still never produces a
row (the store rejects it as a non-duplicate error). -/
theorem C7_amended_validation_rejects (i : String) (s : SysState)
    (raw : RawRecord) (o : Oracle) :
    (validateEvent raw = none ↔
      (raw.event_id = none ∨ raw.event_id = some "" ∨
       raw.event_type = none)) ∧
    (validateEvent raw = none →
      websocket_frame i s raw o = ⟨s, .invalid, false, false⟩) ∧
    (∀ e, validateEvent raw = some e → 255 < e.event_id.length →
      (websocket_frame i s raw o).state.db = s.db) := by
  refine ⟨?_, ?_, ?_⟩
  · rcases raw with ⟨eidO, etO, p, c⟩
    cases eidO with
    | none => simp [validateEvent]
    | some eid =>
      cases etO with
      | none => simp [validateEvent]
      | some et =>
        simp only [validateEvent]
        by_cases h : 1 ≤ eid.length
        · have hne : eid ≠ "" := by
            intro hc
            subst hc
            exact absurd h (by decide)
          simp [h, hne]
        · have h0 : eid = "" := (string_length_eq_zero_iff eid).mp (by omega)
          simp [h, h0]
  · intro h
    simp [websocket_frame, h]
  · intro e hv hlen
    by_cases hoi : (websocket_frame i s raw o).outcome = .persisted .inserted
    · rcases frame_inserted_db i s raw o e hv hoi with ⟨_, hl, _, _⟩
      omega
    · exact frame_db_unchanged_unless_inserted i s raw o hoi

set_option maxRecDepth 8192 in
/-- Witness for C7 (amended): a record missing `event_type` is dropped
unchanged, and a well-formed record with a 256-character `event_id`
leaves the table unchanged. -/
theorem C7_amended_validation_rejects_witness :
    websocket_frame "i1" initState ⟨some "x", none, some [], none⟩
        goodOracle = ⟨initState, .invalid, false, false⟩ ∧
    (websocket_frame "i1" initState
        ⟨some longId256, some "t", some [], none⟩ goodOracle).state.db
      = initState.db :=
  ⟨(C7_amended_validation_rejects "i1" initState
      ⟨some "x", none, some [], none⟩ goodOracle).2.1 rfl,
   (C7_amended_validation_rejects "i1" initState
      ⟨some longId256, some "t", some [], none⟩ goodOracle).2.2
      ⟨longId256, "t", some [], none⟩ rfl (by decide)⟩

/-- C8 counterexample: on a store fault, `process_persist` re-raises the
non-`IntegrityError` exception to its caller instead of returning a
classified outcome, so an exception does cross from the persist routine
into the session loop, contrary to the claim. -/
theorem C8_counterexample_persist_raises :
    process_persist ⟨"e1", "t", some [], none⟩ [] true
      = .error .connection := rfl

/-- C8 (amended): `process_persist` propagates non-`IntegrityError` store
failures as exceptions, but the session loop catches every such
exception, classifies the frame as `persistError`, releases the claim,
and continues — no exception escapes the per-frame handler. -/
theorem C8_amended_session_loop_catches (i : String) (s : SysState)
    (raw : RawRecord) (o : Oracle) (e : EventSchema) (rej : StoreRej)
    (hv : validateEvent raw = some e)
    (hc : (websocket_frame i s raw o).calledInsert = true)
    (hp : process_persist e s.db o.storeFault = .error rej) :
    (websocket_frame i s raw o).outcome = .persistError ∧
    (websocket_frame i s raw o).calledRelease = true := by
  simp only [websocket_frame, hv] at hc ⊢
  split at hc <;> (try simp_all) <;> (repeat' split at hc) <;> simp_all

/-- Witness for C8 (amended) at a concrete store fault. -/
theorem C8_amended_session_loop_catches_witness :
    (websocket_frame "i1" initState rawGood oracleStoreDown).outcome
        = .persistError ∧
    (websocket_frame "i1" initState rawGood oracleStoreDown).calledRelease
        = true :=
  C8_amended_session_loop_catches "i1" initState rawGood oracleStoreDown
    ⟨"e1", "t", some [], none⟩ .connection rfl rfl rfl

/-- A valid record whose optional payload is absent. -/
def rawNoPayload : RawRecord := ⟨some "p1", some "t", none, none⟩

/-- A valid record whose payload carries a truthy `force_fail` key. -/
def rawForceFail : RawRecord :=
  ⟨some "f1", some "t", some [("force_fail", .pybool true)], none⟩

/-- C9 counterexample: processing does branch on the payload's contents
(the `force_fail` key aborts the frame), and an event whose optional
payload is absent is not persisted — the `payload.get` call raises
`AttributeError` before the insert — contrary to the claim. -/
theorem C9_counterexample_payload_not_opaque :
    (websocket_frame "i1" initState rawNoPayload goodOracle).state.db
        = [] ∧
    (websocket_frame "i1" initState rawNoPayload goodOracle).calledInsert
        = false ∧
    (websocket_frame "i1" initState rawForceFail goodOracle).outcome
        = .forcedFail ∧
    (websocket_frame "i1" initState rawForceFail goodOracle).state.db
        = [] :=
  ⟨rfl, rfl, rfl, rfl⟩

/-- C9 (amended): a persisted row stores the submitted payload verbatim
(together with the submitted `event_id` and `event_type`), while an
event whose payload is absent — or whose payload carries a truthy
`force_fail` key — fails processing before the insert and writes no
row. -/
theorem C9_amended_payload_stored_verbatim (i : String) (s : SysState)
    (raw : RawRecord) (o : Oracle) (e : EventSchema)
    (hv : validateEvent raw = some e) :
    ((websocket_frame i s raw o).outcome = .persisted .inserted →
      (websocket_frame i s raw o).state.db
        = s.db ++ [⟨e.event_id, e.event_type, e.payload⟩]) ∧
    (e.payload = none →
      (websocket_frame i s raw o).state.db = s.db ∧
      (websocket_frame i s raw o).calledInsert = false) := by
  constructor
  · intro h
    exact (frame_inserted_db i s raw o e hv h).1
  · intro hp
    exact frame_payload_none i s raw o e hv hp

/-- Witness for C9 (amended): a healthy insert stores the payload
verbatim, and the absent-payload record writes nothing. -/
theorem C9_amended_payload_stored_verbatim_witness :
    (websocket_frame "i1" initState rawGood goodOracle).state.db
        = [⟨"e1", "t", some []⟩] ∧
    (websocket_frame "i1" initState rawNoPayload goodOracle).state.db
        = initState.db :=
  ⟨(C9_amended_payload_stored_verbatim "i1" initState rawGood goodOracle
      ⟨"e1", "t", some [], none⟩ rfl).1 rfl,
   ((C9_amended_payload_stored_verbatim "i1" initState rawNoPayload
      goodOracle ⟨"p1", "t", none, none⟩ rfl).2 rfl).1⟩

/-- C10: noninterference of `created_at` — two frames that differ only in
their `created_at` field produce identical frame results from any state:
same claim behavior, same persist behavior, same stored rows, same
outcome. -/
theorem C10_created_at_noninterference (i : String) (s : SysState)
    (raw : RawRecord) (o : Oracle) (c c' : Option Int) :
    websocket_frame i s { raw with created_at := c } o
      = websocket_frame i s { raw with created_at := c' } o := by
  rcases raw with ⟨eidO, etO, p, c0⟩
  cases eidO <;> cases etO <;>
    simp only [websocket_frame, validateEvent] <;>
    try rfl
  split_ifs <;> rfl
